import Mathlib

/-!
Shallow embedding of the agent orchestration engine of
`src/agentic_workflow.py` (class `LifelogAgentWorkflow`) and of the
safety-gate result shaping of `src/agents.py` (class `SafetyGuardAgent`).

The LangGraph nodes become pure functions on an explicit `AgentState`
record; every external collaborator call (planner, retriever, observer,
synthesizer, safety gate) is a parameter returning `Except String α`,
where `Except.error e` models a raised Python exception with text `e`.
The graph's wiring (`_build_graph`) is embedded as an explicit driver
(`graphRun`): input safety node, then the Reason → Act → Observe loop
governed by `should_continue_react`, then synthesis and the output
safety node.  Note that the source adds an unconditional edge from
`safety_check_input` to `react_reason`, so the driver below does the
same: there is no early exit after the input check.
-/

namespace Lifelog

/-- Python's substring test `pat in s`, on the character lists. -/
def strContainsAux (pat : List Char) : List Char → Bool
  | [] => pat.isEmpty
  | c :: rest => pat.isPrefixOf (c :: rest) || strContainsAux pat rest

/-- Python's `pat in s` for strings. -/
def strContains (s pat : String) : Bool :=
  strContainsAux pat.toList s.toList

/-- One entry of `reasoning_steps`: the dicts `{"step": ..., "description": ...}`. -/
structure ReasoningStep where
  step : String
  description : String
deriving DecidableEq, Repr

/-- One entry of `safety_checks`: the input-phase dicts carry
`type/is_safe/category/should_block`, the output-phase dicts carry
`type/is_safe/should_block/needs_modification`. -/
inductive SafetyCheck where
  | input (is_safe : Bool) (category : String) (should_block : Bool)
  | output (is_safe : Bool) (should_block : Bool) (needs_modification : Bool)
deriving DecidableEq, Repr

/-- An item returned by `data_store.query`; the engine treats it as opaque. -/
abbrev ContextItem := String

/-- The `react_context` dict: keys `current_reasoning`, `next_action`,
`last_action_result`; `none` models an absent key. -/
structure ReactContext where
  current_reasoning : Option String := none
  next_action : Option String := none
  last_action_result : Option String := none
deriving DecidableEq, Repr

/-- The `AgentState` TypedDict threaded between graph nodes. -/
structure AgentState where
  query : String
  query_analysis : List String := []
  retrieved_data : List ContextItem := []
  response : String := ""
  reasoning_steps : List ReasoningStep := []
  safety_checks : List SafetyCheck := []
  react_context : ReactContext := {}
  observations : List String := []
  iteration_count : Nat := 0
  should_continue : Bool := true
deriving DecidableEq, Repr

/-- Result dict of `SafetyGuardAgent.check_input_safety` as consumed by the
workflow (`is_safe`, `category`, `should_block`). -/
structure InputSafety where
  is_safe : Bool
  category : String
  should_block : Bool
deriving DecidableEq, Repr

/-- Result dict of `SafetyGuardAgent.check_output_safety` as consumed by the
workflow (`is_safe`, `should_block`, `needs_modification`). -/
structure OutputSafety where
  is_safe : Bool
  should_block : Bool
  needs_modification : Bool
deriving DecidableEq, Repr

/-- Result dict of `ReActAgent.reason_and_plan` (`reasoning`, `next_action`). -/
structure ReasonResult where
  reasoning : String
  next_action : String
deriving DecidableEq, Repr

/-- Result dict of `ReActAgent.observe_and_reflect` (`observation`, `is_sufficient`). -/
structure ObserveResult where
  observation : String
  is_sufficient : Bool
deriving DecidableEq, Repr

/-- The external collaborators (model calls and the vector store), as
deterministic behaviour functions.  `Except.error e` models a raised
exception.  The retriever and observer take an extra call-index argument
(the engine passes `iteration_count` resp. `observations.length`) so that
a stateful external collaborator's per-call behaviour sequence can be
expressed; a collaborator ignoring that index is the stateless case. -/
structure Collaborators where
  checkInput : String → Except String InputSafety
  reasonPlan : String → List String → Except String ReasonResult
  retrieve : String → Nat → Nat → Except String (List ContextItem)
  observe : String → String → Nat → Except String ObserveResult
  synthesize : String → List ContextItem → Except String String
  checkOutput : String → String → Except String OutputSafety

/-- The engine's construction-time configuration (`self.max_iterations`).
Python ints may be negative, hence `Int`. -/
structure Workflow where
  max_iterations : Int
deriving DecidableEq, Repr

/-- `LifelogAgentWorkflow.__init__(data_store, max_iterations=3)`.
The source stores the arguments and builds the graph; it performs no
validation of `max_iterations`, so construction never fails and the
`Except` is always `.ok`. -/
def mkWorkflow (max_iterations : Int := 3) : Except String Workflow :=
  .ok { max_iterations := max_iterations }

/-- The refusal string written by `safety_check_input_node` when the input
gate blocks. -/
def inputRefusal (category : String) : String :=
  "I\x27m sorry, but I can\x27t process this request. It was flagged for: "
    ++ category ++ ". Please rephrase your question."

/-- The fixed safe-fallback string written by `safety_check_output_node`
when the output gate blocks. -/
def outputFallback : String :=
  "I apologize, but I need to refine my response. Let me provide a safer answer based on your data."

/-- `LifelogAgentWorkflow.safety_check_input_node`. -/
def safety_check_input_node (c : Collaborators) (s : AgentState) :
    Except String AgentState :=
  let steps := s.reasoning_steps ++
    [⟨"🛡️ Input Safety Check", "Validating user input with Nemotron Safety Guard"⟩]
  match c.checkInput s.query with
  | .error e => .error e
  | .ok sr =>
    let checks := s.safety_checks ++ [.input sr.is_safe sr.category sr.should_block]
    if sr.should_block then
      .ok { s with
        safety_checks := checks
        reasoning_steps := steps ++
          [⟨"⚠️ Input Blocked", "Input flagged as unsafe: " ++ sr.category⟩]
        response := inputRefusal sr.category
        should_continue := false }
    else
      .ok { s with
        safety_checks := checks
        reasoning_steps := steps ++
          [⟨"✅ Input Validated", "User input passed safety checks"⟩]
        should_continue := true }

/-- `LifelogAgentWorkflow.react_reason_node`. -/
def react_reason_node (c : Collaborators) (s : AgentState) :
    Except String AgentState :=
  let steps := s.reasoning_steps ++
    [⟨"🧠 ReAct Cycle " ++ toString (s.iteration_count + 1) ++ ": REASON",
      "Analyzing problem and planning next action"⟩]
  match c.reasonPlan s.query s.observations with
  | .error e => .error e
  | .ok rr =>
    .ok { s with
      react_context := { s.react_context with
        current_reasoning := some rr.reasoning
        next_action := some rr.next_action }
      reasoning_steps := steps ++
        [⟨"💡 Reasoning Complete", "Planned action: " ++ rr.next_action⟩] }

/-- `LifelogAgentWorkflow.react_act_node`.  Both branches call
`data_store.query(query, n_results=5)` and *replace* `retrieved_data`
with the returned list. -/
def react_act_node (c : Collaborators) (s : AgentState) :
    Except String AgentState :=
  let next_action := s.react_context.next_action.getD "data_retrieval"
  let steps := s.reasoning_steps ++
    [⟨"⚡ ReAct: ACT", "Executing action: " ++ next_action⟩]
  if strContains next_action "data" || strContains next_action "retrieval"
      || strContains next_action "analysis" then
    match c.retrieve s.query 5 s.iteration_count with
    | .error e => .error e
    | .ok results =>
      .ok { s with
        retrieved_data := results
        react_context := { s.react_context with
          last_action_result :=
            some ("Retrieved " ++ toString results.length ++ " relevant lifelog entries") }
        reasoning_steps := steps ++
          [⟨"📊 Data Retrieved",
            "Found " ++ toString results.length ++ " relevant entries from personal lifelog"⟩] }
  else
    match c.retrieve s.query 5 s.iteration_count with
    | .error e => .error e
    | .ok results =>
      .ok { s with
        retrieved_data := results
        react_context := { s.react_context with
          last_action_result :=
            some ("Retrieved " ++ toString results.length ++ " entries") }
        reasoning_steps := steps }

/-- `LifelogAgentWorkflow.react_observe_node`. -/
def react_observe_node (wf : Workflow) (c : Collaborators) (s : AgentState) :
    Except String AgentState :=
  let steps := s.reasoning_steps ++
    [⟨"👁️ ReAct: OBSERVE", "Reflecting on results and determining sufficiency"⟩]
  let action_result := s.react_context.last_action_result.getD "No action result"
  match c.observe action_result s.query s.observations.length with
  | .error e => .error e
  | .ok ores =>
    let observations := s.observations ++ [ores.observation]
    let iteration_count := s.iteration_count + 1
    let should_continue := !ores.is_sufficient
    if (iteration_count : Int) ≥ wf.max_iterations then
      .ok { s with
        observations := observations
        iteration_count := iteration_count
        should_continue := false
        reasoning_steps := steps ++
          [⟨"🎯 Observation Complete",
            "Sufficient information gathered after " ++ toString iteration_count ++ " cycles"⟩] }
    else if should_continue then
      .ok { s with
        observations := observations
        iteration_count := iteration_count
        should_continue := should_continue
        reasoning_steps := steps ++
          [⟨"🔄 Need More Information", "Continuing ReAct loop for additional data"⟩] }
    else
      .ok { s with
        observations := observations
        iteration_count := iteration_count
        should_continue := should_continue
        reasoning_steps := steps ++
          [⟨"✅ Ready to Synthesize", "Sufficient information gathered to answer query"⟩] }

/-- `LifelogAgentWorkflow._should_continue_react`: the conditional edge
evaluated after every observe node. -/
def should_continue_react (wf : Workflow) (s : AgentState) : String :=
  if (s.iteration_count : Int) ≥ wf.max_iterations then "synthesize"
  else if s.should_continue = false then "synthesize"
  else if s.observations.length ≥ 2 ∧ !s.retrieved_data.isEmpty then "synthesize"
  else "continue"

/-- `LifelogAgentWorkflow.synthesize_response_node`. -/
def synthesize_response_node (c : Collaborators) (s : AgentState) :
    Except String AgentState :=
  let steps := s.reasoning_steps ++
    [⟨"🎨 Response Synthesis", "Synthesizing insights from all gathered information"⟩]
  match c.synthesize s.query s.retrieved_data with
  | .error e => .error e
  | .ok response =>
    .ok { s with
      response := response
      reasoning_steps := steps ++
        [⟨"✨ Synthesis Complete", "Generated personalized insights and recommendations"⟩] }

/-- `LifelogAgentWorkflow.safety_check_output_node`. -/
def safety_check_output_node (c : Collaborators) (s : AgentState) :
    Except String AgentState :=
  let steps := s.reasoning_steps ++
    [⟨"🛡️ Output Safety Check", "Validating AI response with Nemotron Safety Guard"⟩]
  match c.checkOutput s.response s.query with
  | .error e => .error e
  | .ok sr =>
    let checks := s.safety_checks ++ [.output sr.is_safe sr.should_block sr.needs_modification]
    if sr.should_block then
      .ok { s with
        safety_checks := checks
        reasoning_steps := steps ++
          [⟨"⚠️ Output Blocked", "AI response flagged as potentially unsafe"⟩]
        response := outputFallback }
    else if sr.needs_modification then
      .ok { s with
        safety_checks := checks
        reasoning_steps := steps ++
          [⟨"⚡ Output Refined", "Response passed with minor considerations noted"⟩] }
    else
      .ok { s with
        safety_checks := checks
        reasoning_steps := steps ++
          [⟨"✅ Output Validated", "AI response passed all safety checks"⟩] }

/-- The initial state dict built at the top of `run` and `stream`. -/
def initialState (query : String) : AgentState :=
  { query := query
    query_analysis := []
    retrieved_data := []
    response := ""
    reasoning_steps := []
    safety_checks := []
    react_context := {}
    observations := []
    iteration_count := 0
    should_continue := true }

/-- A `graph.stream` event: the name of the node that just ran and the
state it returned (every node returns the whole updated state dict). -/
abbrev NodeEvent := String × AgentState

/-- One Reason → Act → Observe pass of the compiled graph, together with
the node events it emits.  On a collaborator exception the events already
emitted before the raise are kept next to the error. -/
def cycleNodes (wf : Workflow) (c : Collaborators) (s : AgentState) :
    List NodeEvent × Except String AgentState :=
  match react_reason_node c s with
  | .error e => ([], .error e)
  | .ok s1 =>
    match react_act_node c s1 with
    | .error e => ([("react_reason", s1)], .error e)
    | .ok s2 =>
      match react_observe_node wf c s2 with
      | .error e => ([("react_reason", s1), ("react_act", s2)], .error e)
      | .ok s3 =>
        ([("react_reason", s1), ("react_act", s2), ("react_observe", s3)], .ok s3)

/-- The ReAct loop of the compiled graph: run a cycle, then follow the
conditional edge `should_continue_react`; loop on "continue", exit on
"synthesize".  `fuel` is a structural-recursion bound; the driver calls
it with `max_iterations.toNat + 1`, which is never exhausted because the
loop exits as soon as `iteration_count ≥ max_iterations`
(`reactLoopFuel_fuel_irrelevant` below makes that precise). -/
def reactLoopFuel (wf : Workflow) (c : Collaborators) :
    Nat → AgentState → List NodeEvent × Except String AgentState
  | 0, s => ([], .ok s)
  | fuel + 1, s =>
    let p := cycleNodes wf c s
    match p.2 with
    | .error e => (p.1, .error e)
    | .ok s3 =>
      if should_continue_react wf s3 = "continue" then
        let r := reactLoopFuel wf c fuel s3
        (p.1 ++ r.1, r.2)
      else (p.1, .ok s3)

/-- The compiled graph, end to end: entry point `safety_check_input`,
unconditional edge to `react_reason` (the source adds no conditional
edge there), the ReAct loop, then `synthesize_response` and
`safety_check_output` to `END`.  Returns the full event sequence
(`graph.stream`) and the final state or raised error (`graph.invoke`). -/
def graphRun (wf : Workflow) (c : Collaborators) (query : String) :
    List NodeEvent × Except String AgentState :=
  match safety_check_input_node c (initialState query) with
  | .error e => ([], .error e)
  | .ok s1 =>
    let p := reactLoopFuel wf c (wf.max_iterations.toNat + 1) s1
    match p.2 with
    | .error e => (("safety_check_input", s1) :: p.1, .error e)
    | .ok s2 =>
      match synthesize_response_node c s2 with
      | .error e => (("safety_check_input", s1) :: p.1, .error e)
      | .ok s3 =>
        match safety_check_output_node c s3 with
        | .error e =>
          (("safety_check_input", s1) :: p.1 ++ [("synthesize_response", s3)], .error e)
        | .ok s4 =>
          (("safety_check_input", s1) :: p.1 ++
            [("synthesize_response", s3), ("safety_check_output", s4)], .ok s4)

/-- `self.graph.invoke(initial_state)`: the final state, or the raised error. -/
def graphInvoke (wf : Workflow) (c : Collaborators) (query : String) :
    Except String AgentState :=
  (graphRun wf c query).2

/-- The dict returned by `LifelogAgentWorkflow.run`.  `none` in an
`Option` field models a key absent from the returned dict (the failure
dict carries only `success/query/error/response/reasoning_steps`). -/
structure RunResult where
  success : Bool
  query : String
  response : String
  reasoning_steps : List ReasoningStep
  error : Option String := none
  safety_checks : Option (List SafetyCheck) := none
  observations : Option (List String) := none
  react_cycles : Option Nat := none
  retrieved_entries : Option Nat := none
deriving DecidableEq, Repr

/-- `LifelogAgentWorkflow.run`: invoke the graph once inside a
try/except; on success project the final state, on any exception return
the failure dict. -/
def runWorkflow (wf : Workflow) (c : Collaborators) (query : String) : RunResult :=
  match graphInvoke wf c query with
  | .ok fs =>
    { success := true
      query := query
      response := fs.response
      reasoning_steps := fs.reasoning_steps
      safety_checks := some fs.safety_checks
      observations := some fs.observations
      react_cycles := some fs.iteration_count
      retrieved_entries := some fs.retrieved_data.length }
  | .error e =>
    { success := false
      query := query
      error := some e
      response := "Sorry, I encountered an error: " ++ e
      reasoning_steps := [] }

/-- An event yielded by `LifelogAgentWorkflow.stream`: one `intermediate`
dict per graph node, then one `final` dict (same payload as `run`) or
one `error` dict. -/
inductive StreamEvent where
  | intermediate (node : String) (reasoning_steps : List ReasoningStep)
      (safety_checks : List SafetyCheck) (iteration_count : Nat) (should_continue : Bool)
  | final (success : Bool) (query response : String)
      (reasoning_steps : List ReasoningStep) (safety_checks : List SafetyCheck)
      (observations : List String) (react_cycles : Nat) (retrieved_entries : Nat)
  | error (success : Bool) (query err response : String)
      (reasoning_steps : List ReasoningStep)
deriving DecidableEq, Repr

/-- Whether a stream event is one of the per-node `intermediate` dicts. -/
def StreamEvent.isIntermediate : StreamEvent → Bool
  | .intermediate _ _ _ _ _ => true
  | _ => false

/-- The `response` key of a stream event (`intermediate` dicts have none). -/
def StreamEvent.responseOf : StreamEvent → Option String
  | .intermediate _ _ _ _ _ => none
  | .final _ _ r _ _ _ _ _ => some r
  | .error _ _ _ r _ => some r

/-- The `reasoning_steps` key of a stream event (present on all three). -/
def StreamEvent.reasoningStepsOf : StreamEvent → List ReasoningStep
  | .intermediate _ rs _ _ _ => rs
  | .final _ _ _ rs _ _ _ _ => rs
  | .error _ _ _ _ rs => rs

/-- The `safety_checks` key of a stream event (`error` dicts have none). -/
def StreamEvent.safetyChecksOf : StreamEvent → Option (List SafetyCheck)
  | .intermediate _ _ sc _ _ => some sc
  | .final _ _ _ _ sc _ _ _ => some sc
  | .error _ _ _ _ _ => none

/-- The `success` key of a stream event (`intermediate` dicts have none). -/
def StreamEvent.successOf : StreamEvent → Option Bool
  | .intermediate _ _ _ _ _ => none
  | .final ok _ _ _ _ _ _ _ => some ok
  | .error ok _ _ _ _ => some ok

/-- `LifelogAgentWorkflow.stream`: yield one `intermediate` dict per
`graph.stream` event, then a `final` dict built from the last yielded
node state, or — when the graph raises — an `error` dict.  The
`getLast? = none` branch is the source's reference to the then-unbound
`node_state` (a `NameError` caught by the same except); it is
unreachable because a graph that completes has run at least one node. -/
def streamWorkflow (wf : Workflow) (c : Collaborators) (query : String) :
    List StreamEvent :=
  let p := graphRun wf c query
  let inters := p.1.map fun ev =>
    StreamEvent.intermediate ev.1 ev.2.reasoning_steps ev.2.safety_checks
      ev.2.iteration_count ev.2.should_continue
  match p.2 with
  | .error e =>
    inters ++ [.error false query e ("Sorry, I encountered an error: " ++ e) []]
  | .ok _ =>
    match p.1.getLast? with
    | some ev =>
      inters ++ [.final true query ev.2.response ev.2.reasoning_steps
        ev.2.safety_checks ev.2.observations ev.2.iteration_count
        ev.2.retrieved_data.length]
    | none =>
      inters ++ [.error false query "name \x27node_state\x27 is not defined"
        ("Sorry, I encountered an error: name \x27node_state\x27 is not defined") []]

/-!  Embedding of `SafetyGuardAgent` in `src/agents.py`.  The single
fallible step inside `check_input_safety` / `check_output_safety` is the
`self.generate(...)` call; its outcome is the `Except String String`
argument (`.error e` = the call raised with text `e`).  Everything after
it is pure parsing. -/

/-- The `CATEGORY:` extraction of `check_input_safety` (the inner
try/except around the list indexing and split). -/
def extractCategory (response : String) : String :=
  if strContains response "CATEGORY:" then
    match (response.splitOn "\n").filter (fun l => strContains l "CATEGORY:") with
    | [] => "unknown"
    | l :: _ =>
      match l.splitOn "CATEGORY:" with
      | _ :: c :: _ => c.trim.toLower
      | _ => "unknown"
  else "unknown"

/-- The dict returned by `SafetyGuardAgent.check_input_safety`. -/
structure SGInputResult where
  is_safe : Bool
  category : String
  explanation : String
  should_block : Bool
  raw_response : Option String := none
  error : Option String := none
deriving DecidableEq, Repr

/-- `SafetyGuardAgent.check_input_safety`: parse the moderator response;
on an exception, fail closed (`is_safe=false`, `should_block=true`). -/
def check_input_safety (genResult : Except String String) : SGInputResult :=
  match genResult with
  | .ok response =>
    let is_safe := strContains response "SAFE: YES" || strContains response "SAFE:YES"
    let should_block := strContains response "ACTION: BLOCK" || strContains response "ACTION:BLOCK"
    let category := extractCategory response
    { is_safe := is_safe && !should_block
      category := if !is_safe then category else "safe"
      explanation := response
      should_block := should_block
      raw_response := some response }
  | .error e =>
    { is_safe := false
      category := "error"
      explanation := "Safety check failed: " ++ e
      should_block := true
      error := some e }

/-- The dict returned by `SafetyGuardAgent.check_output_safety`. -/
structure SGOutputResult where
  is_safe : Bool
  needs_modification : Bool
  should_block : Bool
  explanation : String
  raw_response : Option String := none
  error : Option String := none
deriving DecidableEq, Repr

/-- `SafetyGuardAgent.check_output_safety`: parse the moderator response;
on an exception, fail open (`is_safe=true`, `should_block=false`) while
recording the failure in `explanation`. -/
def check_output_safety (genResult : Except String String) : SGOutputResult :=
  match genResult with
  | .ok response =>
    let is_safe := strContains response "SAFE: YES" || strContains response "SAFE:YES"
    let should_block :=
      strContains response "RECOMMENDATION: BLOCK" || strContains response "RECOMMENDATION:BLOCK"
    let needs_modification :=
      strContains response "RECOMMENDATION: MODIFY" || strContains response "RECOMMENDATION:MODIFY"
    { is_safe := is_safe && !should_block
      needs_modification := needs_modification
      should_block := should_block
      explanation := response
      raw_response := some response }
  | .error e =>
    { is_safe := true
      needs_modification := false
      should_block := false
      explanation := "Safety check failed (allowing): " ++ e
      error := some e }

/-!  Concrete collaborator behaviours used to evaluate the engine at
specific inputs. -/

/-- An input gate that blocks (category `medical_advice`); every other
collaborator succeeds, the observer is immediately sufficient. -/
def cBlockInput : Collaborators where
  checkInput := fun _ => .ok ⟨false, "medical_advice", true⟩
  reasonPlan := fun _ _ => .ok ⟨"r", "data_retrieval"⟩
  retrieve := fun _ _ _ => .ok ["entry1"]
  observe := fun _ _ _ => .ok ⟨"obs", true⟩
  synthesize := fun _ _ => .ok "SYNTHESIZED"
  checkOutput := fun _ _ => .ok ⟨true, false, false⟩

/-- Allowing gates, a retriever that always returns one item, an observer
that never signals sufficiency. -/
def cTie : Collaborators where
  checkInput := fun _ => .ok ⟨true, "safe", false⟩
  reasonPlan := fun _ _ => .ok ⟨"r", "data_retrieval"⟩
  retrieve := fun _ _ _ => .ok ["x"]
  observe := fun _ _ _ => .ok ⟨"obs", false⟩
  synthesize := fun _ _ => .ok "ANSWER"
  checkOutput := fun _ _ => .ok ⟨true, false, false⟩

/-- Allowing gates, a retriever returning five distinct items per call
(different items on the second call), an observer insufficient on its
first two calls and sufficient afterwards. -/
def cTwoActs : Collaborators where
  checkInput := fun _ => .ok ⟨true, "safe", false⟩
  reasonPlan := fun _ _ => .ok ⟨"r", "data_retrieval"⟩
  retrieve := fun _ _ i =>
    .ok (if i = 0 then ["a1", "a2", "a3", "a4", "a5"] else ["b1", "b2", "b3", "b4", "b5"])
  observe := fun _ _ i => .ok ⟨"obs", 2 ≤ i⟩
  synthesize := fun _ _ => .ok "ANSWER"
  checkOutput := fun _ _ => .ok ⟨true, false, false⟩

/-- A synthesizer that raises; everything before it succeeds. -/
def cSynthFail : Collaborators where
  checkInput := fun _ => .ok ⟨true, "safe", false⟩
  reasonPlan := fun _ _ => .ok ⟨"r", "data_retrieval"⟩
  retrieve := fun _ _ _ => .ok ["x"]
  observe := fun _ _ _ => .ok ⟨"obs", true⟩
  synthesize := fun _ _ => .error "synthesizer exploded"
  checkOutput := fun _ _ => .ok ⟨true, false, false⟩

/-- An output gate that blocks the synthesized response; everything else
succeeds. -/
def cOutBlock : Collaborators where
  checkInput := fun _ => .ok ⟨true, "safe", false⟩
  reasonPlan := fun _ _ => .ok ⟨"r", "data_retrieval"⟩
  retrieve := fun _ _ _ => .ok ["x"]
  observe := fun _ _ _ => .ok ⟨"obs", true⟩
  synthesize := fun _ _ => .ok "UNSAFE DRAFT"
  checkOutput := fun _ _ => .ok ⟨false, true, false⟩

/-!  Node-level lemmas: how each graph node transforms the state when the
collaborator call it wraps succeeds, and what every successful node
preserves. -/

/-- If the input gate call succeeds, the input safety node succeeds,
appends exactly one input-phase entry, and leaves the loop fields at
their incoming values. -/
theorem safety_check_input_intro {c : Collaborators} {s : AgentState} {si : InputSafety}
    (hsi : c.checkInput s.query = .ok si) :
    ∃ s', safety_check_input_node c s = .ok s' ∧
      s'.iteration_count = s.iteration_count ∧ s'.observations = s.observations ∧
      s'.retrieved_data = s.retrieved_data ∧ s'.query = s.query ∧
      s'.safety_checks = s.safety_checks ++ [.input si.is_safe si.category si.should_block] := by
  simp only [safety_check_input_node, hsi]
  by_cases hb : si.should_block = true
  · rw [if_pos hb]
    exact ⟨_, rfl, rfl, rfl, rfl, rfl, rfl⟩
  · rw [if_neg hb]
    exact ⟨_, rfl, rfl, rfl, rfl, rfl, rfl⟩

/-- If the planner call succeeds, the reason node succeeds and changes
only `react_context` and `reasoning_steps`. -/
theorem react_reason_intro {c : Collaborators} {s : AgentState} {r : ReasonResult}
    (hr : c.reasonPlan s.query s.observations = .ok r) :
    ∃ s', react_reason_node c s = .ok s' ∧
      s'.iteration_count = s.iteration_count ∧ s'.observations = s.observations ∧
      s'.retrieved_data = s.retrieved_data ∧ s'.query = s.query ∧
      s'.safety_checks = s.safety_checks ∧ s'.should_continue = s.should_continue := by
  simp only [react_reason_node, hr]
  exact ⟨_, rfl, rfl, rfl, rfl, rfl, rfl, rfl⟩

/-- If the retriever call succeeds, the act node succeeds and *replaces*
`retrieved_data` with the returned items, preserving the rest. -/
theorem react_act_intro {c : Collaborators} {s : AgentState} {items : List ContextItem}
    (ha : c.retrieve s.query 5 s.iteration_count = .ok items) :
    ∃ s', react_act_node c s = .ok s' ∧
      s'.retrieved_data = items ∧
      s'.iteration_count = s.iteration_count ∧ s'.observations = s.observations ∧
      s'.query = s.query ∧ s'.safety_checks = s.safety_checks ∧
      s'.should_continue = s.should_continue := by
  simp only [react_act_node, ha]
  by_cases hc : (strContains (s.react_context.next_action.getD "data_retrieval") "data"
      || strContains (s.react_context.next_action.getD "data_retrieval") "retrieval"
      || strContains (s.react_context.next_action.getD "data_retrieval") "analysis") = true
  · rw [if_pos hc]
    exact ⟨_, rfl, rfl, rfl, rfl, rfl, rfl, rfl⟩
  · rw [if_neg hc]
    exact ⟨_, rfl, rfl, rfl, rfl, rfl, rfl, rfl⟩

/-- If the observer call succeeds, the observe node succeeds, appends the
observation, increments the cycle counter by one, and computes the
continuation flag (`false` once `iteration_count ≥ max_iterations`,
otherwise the negation of the observer's sufficiency verdict). -/
theorem react_observe_intro {wf : Workflow} {c : Collaborators} {s : AgentState}
    {o : ObserveResult}
    (ho : c.observe (s.react_context.last_action_result.getD "No action result")
        s.query s.observations.length = .ok o) :
    ∃ s', react_observe_node wf c s = .ok s' ∧
      s'.iteration_count = s.iteration_count + 1 ∧
      s'.observations = s.observations ++ [o.observation] ∧
      s'.retrieved_data = s.retrieved_data ∧ s'.query = s.query ∧
      s'.safety_checks = s.safety_checks ∧
      s'.should_continue =
        (if ((s.iteration_count + 1 : Nat) : Int) ≥ wf.max_iterations then false
          else !o.is_sufficient) := by
  simp only [react_observe_node, ho]
  by_cases hge : ((s.iteration_count + 1 : Nat) : Int) ≥ wf.max_iterations
  · rw [if_pos hge]
    exact ⟨_, rfl, rfl, rfl, rfl, rfl, rfl, by rw [if_pos hge]⟩
  · rw [if_neg hge]
    by_cases hsuf : (!o.is_sufficient) = true
    · rw [if_pos hsuf]
      exact ⟨_, rfl, rfl, rfl, rfl, rfl, rfl, by rw [if_neg hge]⟩
    · rw [if_neg hsuf]
      exact ⟨_, rfl, rfl, rfl, rfl, rfl, rfl, by rw [if_neg hge]⟩

/-- If the synthesizer call succeeds, the synthesis node succeeds, writes
the returned text into `response`, and preserves the rest. -/
theorem synthesize_intro {c : Collaborators} {s : AgentState} {t : String}
    (hs : c.synthesize s.query s.retrieved_data = .ok t) :
    ∃ s', synthesize_response_node c s = .ok s' ∧
      s'.response = t ∧
      s'.iteration_count = s.iteration_count ∧ s'.observations = s.observations ∧
      s'.retrieved_data = s.retrieved_data ∧ s'.query = s.query ∧
      s'.safety_checks = s.safety_checks := by
  simp only [synthesize_response_node, hs]
  exact ⟨_, rfl, rfl, rfl, rfl, rfl, rfl, rfl⟩

/-- If the output gate call succeeds, the output safety node succeeds,
appends exactly one output-phase entry, overwrites `response` with the
fixed fallback exactly when the gate blocks, and keeps it otherwise. -/
theorem safety_check_output_intro {c : Collaborators} {s : AgentState} {sr : OutputSafety}
    (hco : c.checkOutput s.response s.query = .ok sr) :
    ∃ s', safety_check_output_node c s = .ok s' ∧
      s'.safety_checks = s.safety_checks ++
        [.output sr.is_safe sr.should_block sr.needs_modification] ∧
      (sr.should_block = true → s'.response = outputFallback) ∧
      (sr.should_block = false → s'.response = s.response) ∧
      s'.iteration_count = s.iteration_count ∧ s'.observations = s.observations ∧
      s'.retrieved_data = s.retrieved_data ∧ s'.query = s.query := by
  simp only [safety_check_output_node, hco]
  by_cases hb : sr.should_block = true
  · rw [if_pos hb]
    exact ⟨_, rfl, rfl, fun _ => rfl,
      fun hf => absurd hb (by simp [hf]), rfl, rfl, rfl, rfl⟩
  · rw [if_neg hb]
    by_cases hm : sr.needs_modification = true
    · rw [if_pos hm]
      exact ⟨_, rfl, rfl, fun ht => absurd ht hb,
        fun _ => rfl, rfl, rfl, rfl, rfl⟩
    · rw [if_neg hm]
      exact ⟨_, rfl, rfl, fun ht => absurd ht hb,
        fun _ => rfl, rfl, rfl, rfl, rfl⟩

/-- A successful reason node preserves the cycle counter. -/
theorem react_reason_node_iter {c : Collaborators} {s s' : AgentState}
    (h : react_reason_node c s = .ok s') : s'.iteration_count = s.iteration_count := by
  cases hr : c.reasonPlan s.query s.observations with
  | error e => simp only [react_reason_node, hr] at h; exact absurd h (by simp)
  | ok r =>
    simp only [react_reason_node, hr] at h
    cases h; rfl

/-- A successful act node preserves the cycle counter. -/
theorem react_act_node_iter {c : Collaborators} {s s' : AgentState}
    (h : react_act_node c s = .ok s') : s'.iteration_count = s.iteration_count := by
  cases ha : c.retrieve s.query 5 s.iteration_count with
  | error e =>
    simp only [react_act_node, ha] at h
    split at h <;> simp at h
  | ok items =>
    simp only [react_act_node, ha] at h
    split at h <;> (cases h; rfl)

/-- A successful observe node increments the cycle counter by exactly one. -/
theorem react_observe_node_iter {wf : Workflow} {c : Collaborators} {s s' : AgentState}
    (h : react_observe_node wf c s = .ok s') :
    s'.iteration_count = s.iteration_count + 1 := by
  cases ho : c.observe (s.react_context.last_action_result.getD "No action result")
      s.query s.observations.length with
  | error e => simp only [react_observe_node, ho] at h; exact absurd h (by simp)
  | ok o =>
    simp only [react_observe_node, ho] at h
    split at h
    · cases h; rfl
    · split at h <;> (cases h; rfl)

/-- A successful synthesis node preserves the cycle counter. -/
theorem synthesize_response_node_iter {c : Collaborators} {s s' : AgentState}
    (h : synthesize_response_node c s = .ok s') :
    s'.iteration_count = s.iteration_count := by
  cases hs : c.synthesize s.query s.retrieved_data with
  | error e => simp only [synthesize_response_node, hs] at h; exact absurd h (by simp)
  | ok t =>
    simp only [synthesize_response_node, hs] at h
    cases h; rfl

/-- A successful output safety node preserves the cycle counter. -/
theorem safety_check_output_node_iter {c : Collaborators} {s s' : AgentState}
    (h : safety_check_output_node c s = .ok s') :
    s'.iteration_count = s.iteration_count := by
  cases hco : c.checkOutput s.response s.query with
  | error e => simp only [safety_check_output_node, hco] at h; exact absurd h (by simp)
  | ok sr =>
    simp only [safety_check_output_node, hco] at h
    split at h
    · cases h; rfl
    · split at h <;> (cases h; rfl)

/-- A successful input safety node preserves the cycle counter. -/
theorem safety_check_input_node_iter {c : Collaborators} {s s' : AgentState}
    (h : safety_check_input_node c s = .ok s') :
    s'.iteration_count = s.iteration_count := by
  cases hsi : c.checkInput s.query with
  | error e => simp only [safety_check_input_node, hsi] at h; exact absurd h (by simp)
  | ok si =>
    simp only [safety_check_input_node, hsi] at h
    split at h <;> (cases h; rfl)

/-!  Loop-level lemmas. -/

/-- A successful Reason → Act → Observe pass increments the cycle counter
by exactly one. -/
theorem cycleNodes_ok_iter {wf : Workflow} {c : Collaborators} {s : AgentState}
    {s3 : AgentState}
    (h : (cycleNodes wf c s).2 = .ok s3) :
    s3.iteration_count = s.iteration_count + 1 := by
  cases h1 : react_reason_node c s with
  | error e => simp [cycleNodes, h1] at h
  | ok s1 =>
    cases h2 : react_act_node c s1 with
    | error e => simp [cycleNodes, h1, h2] at h
    | ok s2 =>
      cases h3 : react_observe_node wf c s2 with
      | error e => simp [cycleNodes, h1, h2, h3] at h
      | ok s3' =>
        simp [cycleNodes, h1, h2, h3] at h
        subst h
        have e1 := react_reason_node_iter h1
        have e2 := react_act_node_iter h2
        have e3 := react_observe_node_iter h3
        omega

/-- The conditional edge answers "continue" only while the cycle counter
is strictly below the configured bound. -/
theorem continue_lt_max {wf : Workflow} {s : AgentState}
    (h : should_continue_react wf s = "continue") :
    (s.iteration_count : Int) < wf.max_iterations := by
  unfold should_continue_react at h
  split_ifs at h with h1 h2 h3
  · exact absurd h (by decide)
  · exact absurd h (by decide)
  · exact absurd h (by decide)
  · omega

/-- If the loop ends normally from a state whose counter is below the
bound, the final counter is at most the bound: each pass adds one and the
conditional edge stops as soon as the bound is reached. -/
theorem reactLoopFuel_ok_iter_le {wf : Workflow} {c : Collaborators} :
    ∀ (fuel : Nat) (s : AgentState) (evs : List NodeEvent) (s' : AgentState),
      (s.iteration_count : Int) < wf.max_iterations →
      reactLoopFuel wf c fuel s = (evs, .ok s') →
      (s'.iteration_count : Int) ≤ wf.max_iterations := by
  intro fuel
  induction fuel with
  | zero =>
    intro s evs s' hlt h
    simp only [reactLoopFuel] at h
    have hs : s = s' := by
      have := congrArg Prod.snd h
      simpa using this
    subst hs
    omega
  | succ fuel ih =>
    intro s evs s' hlt h
    simp only [reactLoopFuel] at h
    cases hcy : (cycleNodes wf c s).2 with
    | error e => rw [hcy] at h; simp at h
    | ok s3 =>
      rw [hcy] at h
      dsimp only at h
      have hiter := cycleNodes_ok_iter hcy
      by_cases hc : should_continue_react wf s3 = "continue"
      · rw [if_pos hc] at h
        have hlt3 := continue_lt_max hc
        have h2 : (reactLoopFuel wf c fuel s3).2 = .ok s' := by
          have := congrArg Prod.snd h
          simpa using this
        refine ih s3 (reactLoopFuel wf c fuel s3).1 s' hlt3 ?_
        rw [← h2]
      · rw [if_neg hc] at h
        have hs : s3 = s' := by
          have := congrArg Prod.snd h
          simpa using this
        subst hs
        omega

/-- The fuel argument of `reactLoopFuel` is irrelevant once it reaches
`max_iterations.toNat + 1 - iteration_count`: the loop exits (one way or
another) before the fuel can run out, so the driver's choice of
`max_iterations.toNat + 1` at `iteration_count = 0` computes the same
result as any larger fuel — the fuel is a structural-recursion device,
not part of the semantics. -/
theorem reactLoopFuel_fuel_irrelevant {wf : Workflow} {c : Collaborators} :
    ∀ (fuel₁ fuel₂ : Nat) (s : AgentState),
      s.iteration_count ≤ wf.max_iterations.toNat →
      wf.max_iterations.toNat + 1 - s.iteration_count ≤ fuel₁ →
      wf.max_iterations.toNat + 1 - s.iteration_count ≤ fuel₂ →
      reactLoopFuel wf c fuel₁ s = reactLoopFuel wf c fuel₂ s := by
  intro fuel₁
  induction fuel₁ with
  | zero => intro fuel₂ s hle h1 h2; omega
  | succ f ih =>
    intro fuel₂ s hle h1 h2
    cases fuel₂ with
    | zero => omega
    | succ f₂ =>
      simp only [reactLoopFuel]
      cases hcy : (cycleNodes wf c s).2 with
      | error e => rfl
      | ok s3 =>
        dsimp only
        by_cases hc : should_continue_react wf s3 = "continue"
        · rw [if_pos hc]
          have hiter := cycleNodes_ok_iter hcy
          have hlt := continue_lt_max hc
          have heq : reactLoopFuel wf c f s3 = reactLoopFuel wf c f₂ s3 :=
            ih f₂ s3 (by omega) (by omega) (by omega)
          rw [heq, if_pos hc]
        · rw [if_neg hc, if_neg hc]

/-- When the graph completes, the final state's cycle counter is at most
`max_iterations` (for any configuration with `max_iterations ≥ 1`). -/
theorem graphInvoke_ok_iter_le {wf : Workflow} {c : Collaborators} {q : String}
    {s4 : AgentState}
    (hm : 1 ≤ wf.max_iterations)
    (h : graphInvoke wf c q = .ok s4) :
    (s4.iteration_count : Int) ≤ wf.max_iterations := by
  cases h1 : safety_check_input_node c (initialState q) with
  | error e => simp [graphInvoke, graphRun, h1] at h
  | ok s1 =>
    have hs1iter : s1.iteration_count = 0 := by
      have := safety_check_input_node_iter h1
      simpa [initialState] using this
    cases hloop : reactLoopFuel wf c (wf.max_iterations.toNat + 1) s1 with
    | mk evs r =>
      cases r with
      | error e => simp [graphInvoke, graphRun, h1, hloop] at h
      | ok s2 =>
        have hs2 : (s2.iteration_count : Int) ≤ wf.max_iterations :=
          reactLoopFuel_ok_iter_le _ s1 evs s2 (by rw [hs1iter]; omega) hloop
        cases h3 : synthesize_response_node c s2 with
        | error e => simp [graphInvoke, graphRun, h1, hloop, h3] at h
        | ok s3 =>
          cases h4 : safety_check_output_node c s3 with
          | error e => simp [graphInvoke, graphRun, h1, hloop, h3, h4] at h
          | ok s4' =>
            simp only [graphInvoke, graphRun, h1, hloop, h3, h4] at h
            have hs4 : s4' = s4 := by simpa using h
            subst hs4
            have e3 := synthesize_response_node_iter h3
            have e4 := safety_check_output_node_iter h4
            omega

/-- Under collaborators whose planner always succeeds, whose retriever
always returns a nonempty list, and whose observer always succeeds
judging "insufficient", every Reason → Act → Observe pass succeeds,
adds one cycle and one observation, leaves the context nonempty, and
keeps the continuation flag up until the iteration bound is hit. -/
theorem cycle_good {wf : Workflow} {c : Collaborators}
    (hR : ∀ qq obs, ∃ r, c.reasonPlan qq obs = .ok r)
    (hA : ∀ qq n i, ∃ items, c.retrieve qq n i = .ok items ∧ items ≠ [])
    (hO : ∀ a qq i, ∃ o, c.observe a qq i = .ok ⟨o, false⟩) :
    ∀ s : AgentState, ∃ s3, (cycleNodes wf c s).2 = .ok s3 ∧
      s3.iteration_count = s.iteration_count + 1 ∧
      s3.observations.length = s.observations.length + 1 ∧
      s3.retrieved_data ≠ [] ∧ s3.query = s.query ∧
      s3.should_continue =
        (if ((s.iteration_count + 1 : Nat) : Int) ≥ wf.max_iterations then false
          else true) := by
  intro s
  obtain ⟨r, hr⟩ := hR s.query s.observations
  obtain ⟨s1, h1, h1i, h1o, h1r, h1q, h1s, h1c⟩ := react_reason_intro hr
  obtain ⟨items, ha, hne⟩ := hA s1.query 5 s1.iteration_count
  obtain ⟨s2, h2, h2ret, h2i, h2o, h2q, h2s, h2c⟩ := react_act_intro ha
  obtain ⟨o, ho⟩ := hO (s2.react_context.last_action_result.getD "No action result")
    s2.query s2.observations.length
  obtain ⟨s3, h3, h3i, h3o, h3r, h3q, h3s, h3c⟩ := @react_observe_intro wf c s2 _ ho
  refine ⟨s3, ?_, ?_, ?_, ?_, ?_, ?_⟩
  · simp [cycleNodes, h1, h2, h3]
  · rw [h3i, h2i, h1i]
  · rw [h3o, h2o, h1o]
    simp
  · rw [h3r, h2ret]
    exact hne
  · rw [h3q, h2q, h1q]
  · rw [h3c, h2i, h1i]
    simp

/-- Under the collaborators of `cycle_good` and a bound of 3, the loop
started at cycle zero with no observations runs exactly two passes: the
first pass ends with one observation (so the conditional edge says
"continue"), the second ends with two observations and nonempty context,
which fires exit rule (c) at `iteration = 2` — before the bound of 3. -/
theorem loop_two_cycles {wf : Workflow} {c : Collaborators}
    (hm : wf.max_iterations = 3)
    (hR : ∀ qq obs, ∃ r, c.reasonPlan qq obs = .ok r)
    (hA : ∀ qq n i, ∃ items, c.retrieve qq n i = .ok items ∧ items ≠ [])
    (hO : ∀ a qq i, ∃ o, c.observe a qq i = .ok ⟨o, false⟩) :
    ∀ (k : Nat) (s : AgentState), s.iteration_count = 0 → s.observations = [] →
      ∃ s', (reactLoopFuel wf c (k + 2) s).2 = .ok s' ∧
        s'.iteration_count = 2 ∧ s'.query = s.query := by
  intro k s h0 hobs
  obtain ⟨s3, hcy1, i1, o1, r1, q1, sc1⟩ := cycle_good hR hA hO s
  rw [h0, hm] at sc1
  norm_num at sc1
  have hc1 : should_continue_react wf s3 = "continue" := by
    unfold should_continue_react
    rw [if_neg (by rw [i1, h0, hm]; omega), if_neg (by rw [sc1]; simp),
      if_neg (by rw [o1, hobs]; simp)]
  obtain ⟨s6, hcy2, i2, o2, r2, q2, sc2⟩ := cycle_good hR hA hO s3
  rw [i1, h0, hm] at sc2
  norm_num at sc2
  have hc2 : should_continue_react wf s6 = "synthesize" := by
    unfold should_continue_react
    rw [if_neg (by rw [i2, i1, h0, hm]; omega), if_neg (by rw [sc2]; simp),
      if_pos ⟨by rw [o2, o1, hobs]; simp, by simp [List.isEmpty_iff, r2]⟩]
  refine ⟨s6, ?_, by rw [i2, i1, h0], by rw [q2, q1]⟩
  show (reactLoopFuel wf c ((k + 1) + 1) s).2 = .ok s6
  simp only [reactLoopFuel]
  rw [hcy1]
  dsimp only
  rw [if_pos hc1]
  simp only [reactLoopFuel]
  rw [hcy2]
  dsimp only
  rw [if_neg (by rw [hc2]; decide)]

/-- When the graph completes, the last emitted node event is the output
safety node carrying the final state. -/
theorem graphRun_ok_last {wf : Workflow} {c : Collaborators} {q : String} {s4 : AgentState}
    (h : (graphRun wf c q).2 = .ok s4) :
    (graphRun wf c q).1.getLast? = some ("safety_check_output", s4) := by
  cases h1 : safety_check_input_node c (initialState q) with
  | error e => simp [graphRun, h1] at h
  | ok s1 =>
    cases hloop : (reactLoopFuel wf c (wf.max_iterations.toNat + 1) s1).2 with
    | error e => simp [graphRun, h1, hloop] at h
    | ok s2 =>
      cases h3 : synthesize_response_node c s2 with
      | error e => simp [graphRun, h1, hloop, h3] at h
      | ok s3 =>
        cases h4 : safety_check_output_node c s3 with
        | error e => simp [graphRun, h1, hloop, h3, h4] at h
        | ok s4' =>
          have hs : s4' = s4 := by
            simp [graphRun, h1, hloop, h3, h4] at h
            exact h
          subst hs
          simp [graphRun, h1, hloop, h3, h4]
          rw [← List.cons_append, List.getLast?_append_cons]
          rfl

/-!  The claims. -/

/-- C1 (code bug witness): for a query the input SafetyGate blocks, the
engine does *not* short-circuit: the graph's unconditional
`safety_check_input → react_reason` edge runs the full ReAct loop and the
output check anyway, the Synthesizer overwrites the refusal string, the
safety log ends with two entries (Input and Output), and
`retrievedContext`/`observations` are nonempty — contradicting the claim
that the run ends Blocked with the refusal, one safety entry and empty
context. -/
theorem c1_blocked_input_not_short_circuited :
    (runWorkflow ⟨3⟩ cBlockInput "Can you prescribe me medication?").success = true ∧
    (runWorkflow ⟨3⟩ cBlockInput "Can you prescribe me medication?").response = "SYNTHESIZED" ∧
    (runWorkflow ⟨3⟩ cBlockInput "Can you prescribe me medication?").response ≠
      inputRefusal "medical_advice" ∧
    (runWorkflow ⟨3⟩ cBlockInput "Can you prescribe me medication?").safety_checks =
      some [.input false "medical_advice" true, .output true false false] ∧
    (runWorkflow ⟨3⟩ cBlockInput "Can you prescribe me medication?").observations =
      some ["obs"] ∧
    (runWorkflow ⟨3⟩ cBlockInput "Can you prescribe me medication?").retrieved_entries =
      some 1 :=
  ⟨rfl, rfl, by decide, rfl, rfl, rfl⟩

/-- C2 counterexample: with a retriever returning 5 items on each of two
Act calls (an observer insufficient twice), the terminal retrieved-entry
count is 5 — the last call's items — not the claimed cumulative 10,
because `react_act_node` replaces `retrieved_data`. -/
theorem c2_retrieved_not_cumulative :
    (runWorkflow ⟨3⟩ cTwoActs "q").react_cycles = some 2 ∧
    (runWorkflow ⟨3⟩ cTwoActs "q").observations = some ["obs", "obs"] ∧
    (runWorkflow ⟨3⟩ cTwoActs "q").retrieved_entries = some 5 ∧
    (runWorkflow ⟨3⟩ cTwoActs "q").retrieved_entries ≠ some 10 :=
  ⟨rfl, rfl, rfl, by decide⟩

/-- C2 (amended): every Act step *replaces* `retrievedContext` with the
Retriever's newly returned items, so a run with two Act calls each
returning 5 items ends with a retrieved-entry count of 5 (the last
call's), not a cumulative 10. -/
theorem c2_act_replaces_context :
    (∀ (c : Collaborators) (s : AgentState) (items : List ContextItem),
      c.retrieve s.query 5 s.iteration_count = .ok items →
      ∃ s', react_act_node c s = .ok s' ∧ s'.retrieved_data = items) ∧
    (runWorkflow ⟨3⟩ cTwoActs "q").retrieved_entries = some 5 := by
  constructor
  · intro c s items h
    obtain ⟨s', h', hret, _⟩ := react_act_intro h
    exact ⟨s', h', hret⟩
  · rfl

/-- C2 witness: the replacement property evaluated at the first Act call
of the two-call scenario. -/
theorem c2_act_replaces_context_witness :
    cTwoActs.retrieve (initialState "q").query 5 (initialState "q").iteration_count =
      .ok ["a1", "a2", "a3", "a4", "a5"] ∧
    (∃ s', react_act_node cTwoActs (initialState "q") = .ok s' ∧
      s'.retrieved_data = ["a1", "a2", "a3", "a4", "a5"]) :=
  ⟨rfl, c2_act_replaces_context.1 cTwoActs (initialState "q") _ rfl⟩

/-- C3 counterexample: constructing the engine with `maxIterations = 0`
(which is `< 1`) succeeds — no `ConfigurationError` is raised at
construction time. -/
theorem c3_no_construction_validation :
    mkWorkflow 0 = .ok { max_iterations := 0 } := rfl

/-- C3 (amended): the constructor performs no validation — any
`maxIterations`, including values below 1, is accepted and stored as is —
and the default is 3.  No configuration error exists in the code. -/
theorem c3_constructor_total :
    (∀ m : Int, mkWorkflow m = .ok { max_iterations := m }) ∧
    mkWorkflow = .ok { max_iterations := 3 } :=
  ⟨fun _ => rfl, rfl⟩

/-- C4: with `maxIterations = 3`, an observer that never signals
sufficiency, and a retriever that always returns at least one item (all
collaborators succeeding), the run terminates at `iteration = 2`: the
two-observations-plus-nonempty-context safety-net rule fires before the
max-iterations rule. -/
theorem c4_tie_break (wf : Workflow) (c : Collaborators) (q : String)
    (hm : wf.max_iterations = 3)
    (hCI : ∃ si, c.checkInput q = .ok si)
    (hR : ∀ qq obs, ∃ r, c.reasonPlan qq obs = .ok r)
    (hA : ∀ qq n i, ∃ items, c.retrieve qq n i = .ok items ∧ items ≠ [])
    (hO : ∀ a qq i, ∃ o, c.observe a qq i = .ok ⟨o, false⟩)
    (hS : ∀ qq items, ∃ t, c.synthesize qq items = .ok t)
    (hCO : ∀ r qq, ∃ sr, c.checkOutput r qq = .ok sr) :
    (runWorkflow wf c q).react_cycles = some 2 ∧
    (runWorkflow wf c q).success = true := by
  obtain ⟨si, hsi⟩ := hCI
  have hsi' : c.checkInput (initialState q).query = .ok si := hsi
  obtain ⟨s1, h1, h1i, h1o, h1r, h1q, h1s⟩ := safety_check_input_intro hsi'
  have h1i0 : s1.iteration_count = 0 := h1i
  have h1o0 : s1.observations = [] := h1o
  have hfuel : wf.max_iterations.toNat + 1 = 2 + 2 := by rw [hm]; rfl
  obtain ⟨s6, hloop, hiter6, hq6⟩ := loop_two_cycles hm hR hA hO 2 s1 h1i0 h1o0
  obtain ⟨t, ht⟩ := hS s6.query s6.retrieved_data
  obtain ⟨s7, h7, h7resp, h7i, h7o, h7r, h7q, h7s⟩ := synthesize_intro ht
  obtain ⟨sr, hsr⟩ := hCO s7.response s7.query
  obtain ⟨s8, h8, h8sc, h8bt, h8bf, h8i, h8o, h8r, h8q⟩ := safety_check_output_intro hsr
  have hrun : graphInvoke wf c q = .ok s8 := by
    simp only [graphInvoke, graphRun, h1, hfuel, hloop, h7, h8]
  unfold runWorkflow
  rw [hrun]
  refine ⟨?_, rfl⟩
  show some s8.iteration_count = some 2
  rw [h8i, h7i, hiter6]

/-- C4 witness: the tie-break evaluated at the concrete never-sufficient
collaborators. -/
theorem c4_tie_break_witness :
    (Workflow.mk 3).max_iterations = 3 ∧
    (runWorkflow ⟨3⟩ cTie "q").react_cycles = some 2 ∧
    (runWorkflow ⟨3⟩ cTie "q").success = true :=
  ⟨rfl, (c4_tie_break ⟨3⟩ cTie "q" rfl ⟨_, rfl⟩ (fun _ _ => ⟨_, rfl⟩)
    (fun _ _ _ => ⟨["x"], rfl, by decide⟩) (fun _ _ _ => ⟨"obs", rfl⟩)
    (fun _ _ => ⟨"ANSWER", rfl⟩) (fun _ _ => ⟨_, rfl⟩)).1,
  (c4_tie_break ⟨3⟩ cTie "q" rfl ⟨_, rfl⟩ (fun _ _ => ⟨_, rfl⟩)
    (fun _ _ _ => ⟨["x"], rfl, by decide⟩) (fun _ _ _ => ⟨"obs", rfl⟩)
    (fun _ _ => ⟨"ANSWER", rfl⟩) (fun _ _ => ⟨_, rfl⟩)).2⟩

/-- C5: whatever query and whatever exception any collaborator raises
inside the graph, `run` catches it at the engine boundary and returns the
failure record: `success = false`, a generic apology embedding the error
text, and the error itself; nothing propagates and the graph is invoked
exactly once (no retry packaging exists in the result). -/
theorem c5_errors_caught (wf : Workflow) (c : Collaborators) (q e : String)
    (h : graphInvoke wf c q = .error e) :
    runWorkflow wf c q =
      { success := false, query := q,
        response := "Sorry, I encountered an error: " ++ e, reasoning_steps := [],
        error := some e, safety_checks := none, observations := none,
        react_cycles := none, retrieved_entries := none } := by
  unfold runWorkflow
  rw [h]

/-- C5 witness: a raising synthesizer, evaluated concretely. -/
theorem c5_errors_caught_witness :
    graphInvoke ⟨3⟩ cSynthFail "q" = .error "synthesizer exploded" ∧
    runWorkflow ⟨3⟩ cSynthFail "q" =
      { success := false, query := "q",
        response := "Sorry, I encountered an error: synthesizer exploded",
        reasoning_steps := [], error := some "synthesizer exploded",
        safety_checks := none, observations := none,
        react_cycles := none, retrieved_entries := none } :=
  ⟨rfl, c5_errors_caught ⟨3⟩ cSynthFail "q" "synthesizer exploded" rfl⟩

/-- C6: when the SafetyGate's own evaluation raises, the input-side check
fails closed (`is_safe = false`, `should_block = true`) and the
output-side check fails open (`is_safe = true`, `should_block = false`)
while recording the failure in its explanation. -/
theorem c6_gate_failure_polarity : ∀ e : String,
    (check_input_safety (.error e)).is_safe = false ∧
    (check_input_safety (.error e)).should_block = true ∧
    (check_output_safety (.error e)).is_safe = true ∧
    (check_output_safety (.error e)).should_block = false ∧
    (check_output_safety (.error e)).explanation =
      "Safety check failed (allowing): " ++ e :=
  fun _ => ⟨rfl, rfl, rfl, rfl, rfl⟩

/-- C7: the OutputSafety step appends exactly one output-phase entry; if
the gate blocks, the response is overwritten with the fixed safe-fallback
string, otherwise (including the needs-revision-only case) it is kept
unchanged; and a run whose graph completes still returns `success = true`
(Completed, not Blocked) regardless of the output gate's verdict. -/
theorem c7_output_safety_step :
    (∀ (c : Collaborators) (s : AgentState) (sr : OutputSafety),
      c.checkOutput s.response s.query = .ok sr →
      ∃ s', safety_check_output_node c s = .ok s' ∧
        s'.safety_checks = s.safety_checks ++
          [.output sr.is_safe sr.should_block sr.needs_modification] ∧
        (sr.should_block = true → s'.response = outputFallback) ∧
        (sr.should_block = false → s'.response = s.response)) ∧
    (∀ (wf : Workflow) (c : Collaborators) (q : String) (s4 : AgentState),
      graphInvoke wf c q = .ok s4 → (runWorkflow wf c q).success = true) := by
  constructor
  · intro c s sr h
    obtain ⟨s', h', hsc, hbt, hbf, _, _, _, _⟩ := safety_check_output_intro h
    exact ⟨s', h', hsc, hbt, hbf⟩
  · intro wf c q s4 h
    unfold runWorkflow
    rw [h]

/-- C7 witness: an output gate that blocks, evaluated concretely at the
initial state, plus a full blocked-output run that still succeeds. -/
theorem c7_output_safety_step_witness :
    cOutBlock.checkOutput (initialState "q").response (initialState "q").query =
      .ok ⟨false, true, false⟩ ∧
    (∃ s', safety_check_output_node cOutBlock (initialState "q") = .ok s' ∧
      s'.safety_checks = (initialState "q").safety_checks ++ [.output false true false] ∧
      (true = true → s'.response = outputFallback) ∧
      (true = false → s'.response = (initialState "q").response)) ∧
    (runWorkflow ⟨3⟩ cOutBlock "q").success = true :=
  ⟨rfl, c7_output_safety_step.1 cOutBlock (initialState "q") ⟨false, true, false⟩ rfl,
    c7_output_safety_step.2 ⟨3⟩ cOutBlock "q" _ rfl⟩

/-- C8: for every query and collaborator behaviour, `stream` yields a
finite event list ending in exactly one non-intermediate (final or error)
event whose success flag, response, reasoning log, and safety log equal
those of `run`'s result record — streaming is observability only. -/
theorem c8_stream_run_agree (wf : Workflow) (c : Collaborators) (q : String) :
    ∃ pre last, streamWorkflow wf c q = pre ++ [last] ∧
      (∀ ev ∈ pre, ev.isIntermediate = true) ∧
      last.isIntermediate = false ∧
      last.successOf = some (runWorkflow wf c q).success ∧
      last.responseOf = some (runWorkflow wf c q).response ∧
      last.reasoningStepsOf = (runWorkflow wf c q).reasoning_steps ∧
      last.safetyChecksOf = (runWorkflow wf c q).safety_checks := by
  cases hg : (graphRun wf c q).2 with
  | error e =>
    have hrun : runWorkflow wf c q =
        { success := false, query := q,
          response := "Sorry, I encountered an error: " ++ e, reasoning_steps := [],
          error := some e, safety_checks := none, observations := none,
          react_cycles := none, retrieved_entries := none } := by
      unfold runWorkflow graphInvoke
      rw [hg]
    refine ⟨(graphRun wf c q).1.map (fun ev =>
        StreamEvent.intermediate ev.1 ev.2.reasoning_steps ev.2.safety_checks
          ev.2.iteration_count ev.2.should_continue),
      .error false q e ("Sorry, I encountered an error: " ++ e) [],
      ?_, ?_, rfl, ?_, ?_, ?_, ?_⟩
    · simp only [streamWorkflow]
      rw [hg]
    · intro ev hev
      simp only [List.mem_map] at hev
      obtain ⟨x, _, rfl⟩ := hev
      rfl
    · rw [hrun]
      rfl
    · rw [hrun]
      rfl
    · rw [hrun]
      rfl
    · rw [hrun]
      rfl
  | ok s4 =>
    have hlast := graphRun_ok_last hg
    have hrun : runWorkflow wf c q =
        { success := true, query := q, response := s4.response,
          reasoning_steps := s4.reasoning_steps,
          error := none, safety_checks := some s4.safety_checks,
          observations := some s4.observations,
          react_cycles := some s4.iteration_count,
          retrieved_entries := some s4.retrieved_data.length } := by
      unfold runWorkflow graphInvoke
      rw [hg]
    refine ⟨(graphRun wf c q).1.map (fun ev =>
        StreamEvent.intermediate ev.1 ev.2.reasoning_steps ev.2.safety_checks
          ev.2.iteration_count ev.2.should_continue),
      .final true q s4.response s4.reasoning_steps s4.safety_checks s4.observations
        s4.iteration_count s4.retrieved_data.length,
      ?_, ?_, rfl, ?_, ?_, ?_, ?_⟩
    · simp only [streamWorkflow]
      rw [hg, hlast]
    · intro ev hev
      simp only [List.mem_map] at hev
      obtain ⟨x, _, rfl⟩ := hev
      rfl
    · rw [hrun]
      rfl
    · rw [hrun]
      rfl
    · rw [hrun]
      rfl
    · rw [hrun]
      rfl

/-- C9: for every run with `maxIterations ≥ 1`, the terminal cycle count
reported by `run` is at most `maxIterations`; and once the counter has
reached the bound, the conditional edge exits the loop regardless of the
Observer's sufficiency judgment. -/
theorem c9_iteration_bounded (wf : Workflow) (c : Collaborators) (q : String)
    (hm : 1 ≤ wf.max_iterations) :
    (∀ n, (runWorkflow wf c q).react_cycles = some n → (n : Int) ≤ wf.max_iterations) ∧
    (∀ s : AgentState, (s.iteration_count : Int) ≥ wf.max_iterations →
      should_continue_react wf s = "synthesize") := by
  constructor
  · intro n hn
    cases hg : graphInvoke wf c q with
    | error e =>
      unfold runWorkflow at hn
      rw [hg] at hn
      simp at hn
    | ok s4 =>
      unfold runWorkflow at hn
      rw [hg] at hn
      have hn' : s4.iteration_count = n := by simpa using hn
      rw [← hn']
      exact graphInvoke_ok_iter_le hm hg
  · intro s hs
    unfold should_continue_react
    rw [if_pos hs]

/-- C9 witness: the bound evaluated on a concrete two-cycle run with
`maxIterations = 3`. -/
theorem c9_iteration_bounded_witness :
    (1 : Int) ≤ (Workflow.mk 3).max_iterations ∧
    ((2 : Nat) : Int) ≤ (Workflow.mk 3).max_iterations :=
  ⟨by decide, (c9_iteration_bounded ⟨3⟩ cTwoActs "q" (by decide)).1 2 rfl⟩

/-- C10: on the failure path, the record returned by `run` carries an
empty reasoning-step list and omits the safety-check, observation,
react-cycle and retrieved-entry fields entirely (modelled as `none`), and
the event `stream` ends with is the error event, which likewise carries
empty reasoning steps and no safety-check field — the audit trail
accumulated before the exception is discarded. -/
theorem c10_failure_discards_audit (wf : Workflow) (c : Collaborators) (q e : String)
    (h : graphInvoke wf c q = .error e) :
    (runWorkflow wf c q).reasoning_steps = [] ∧
    (runWorkflow wf c q).safety_checks = none ∧
    (runWorkflow wf c q).observations = none ∧
    (runWorkflow wf c q).react_cycles = none ∧
    (runWorkflow wf c q).retrieved_entries = none ∧
    streamWorkflow wf c q =
      ((graphRun wf c q).1.map (fun ev =>
        StreamEvent.intermediate ev.1 ev.2.reasoning_steps ev.2.safety_checks
          ev.2.iteration_count ev.2.should_continue)) ++
      [.error false q e ("Sorry, I encountered an error: " ++ e) []] ∧
    (StreamEvent.error false q e ("Sorry, I encountered an error: " ++ e)
      []).safetyChecksOf = none := by
  have hg : (graphRun wf c q).2 = .error e := h
  refine ⟨?_, ?_, ?_, ?_, ?_, ?_, rfl⟩
  · unfold runWorkflow; rw [h]
  · unfold runWorkflow; rw [h]
  · unfold runWorkflow; rw [h]
  · unfold runWorkflow; rw [h]
  · unfold runWorkflow; rw [h]
  · simp only [streamWorkflow]
    rw [hg]

/-- C10 witness: the failure record and error event of a raising
synthesizer, evaluated concretely. -/
theorem c10_failure_discards_audit_witness :
    graphInvoke ⟨3⟩ cSynthFail "q" = .error "synthesizer exploded" ∧
    (runWorkflow ⟨3⟩ cSynthFail "q").reasoning_steps = [] ∧
    (runWorkflow ⟨3⟩ cSynthFail "q").safety_checks = none ∧
    (runWorkflow ⟨3⟩ cSynthFail "q").observations = none ∧
    (runWorkflow ⟨3⟩ cSynthFail "q").react_cycles = none ∧
    (runWorkflow ⟨3⟩ cSynthFail "q").retrieved_entries = none :=
  ⟨rfl,
    (c10_failure_discards_audit ⟨3⟩ cSynthFail "q" "synthesizer exploded" rfl).1,
    (c10_failure_discards_audit ⟨3⟩ cSynthFail "q" "synthesizer exploded" rfl).2.1,
    (c10_failure_discards_audit ⟨3⟩ cSynthFail "q" "synthesizer exploded" rfl).2.2.1,
    (c10_failure_discards_audit ⟨3⟩ cSynthFail "q" "synthesizer exploded" rfl).2.2.2.1,
    (c10_failure_discards_audit ⟨3⟩ cSynthFail "q" "synthesizer exploded" rfl).2.2.2.2.1⟩

end Lifelog
